import Mathlib

/-!
Shallow embedding of the Carebot-API User-server session subsystem
(`src/BE/User-server/Database/authentication.py`,
`src/BE/User-server/Routers/authentication.py`,
`src/BE/User-server/Database/connector.py`).

The relational store is modelled as a list of rows and time as integer
seconds.  Python exceptions are modelled with `Except`: a `try` body returns
`Except PyErr _`, and the surrounding `except`/`finally` structure is a
separate wrapper definition.  Python's `return result` inside a `finally`
block suppresses any in-flight exception and returns `result`'s current
value; the wrappers reflect that.
-/

/-- Role of an account.  The closed set of role strings comes from the
account-creation validation in `main.py` (TEST, MAIN, SUB, SYSTEM). -/
inductive Role where
  | TEST
  | MAIN
  | SUB
  | SYSTEM
deriving DecidableEq, Repr

/-- A row of `LoginSessionsTable`: session id (`xid`), owning user id,
last-active timestamp (seconds since epoch), and the privileged flag fixed
at login. -/
structure Session where
  xid : String
  user_id : String
  last_active : Int
  is_main_user : Bool
deriving DecidableEq, Repr

/-- A row of `AccountsTable`, with the fields serialized by
`get_one_account` in `connector.py` plus the stored password hash. -/
structure Account where
  id : String
  email : String
  password : String
  role : Role
  user_name : Option String
  birth_date : Option String
  gender : Option String
  address : Option String
deriving DecidableEq, Repr

/-- A row of `FamiliesTable` as serialized by `get_one_family`. -/
structure Family where
  id : String
  main_user : String
  family_name : String
deriving DecidableEq, Repr

/-- Python exceptions that can arise in the store layer:
`SQLAlchemyError` from the driver, `TypeError` from subscripting `None`. -/
inductive PyErr where
  | sqlAlchemyError
  | typeError
deriving DecidableEq, Repr

/-- An `HTTPException` raised by a handler, identified by its status code. -/
structure HTTPErr where
  status : Nat
deriving DecidableEq, Repr

/-- `SESSION_EXPIRE_TIME` environment default (seconds). -/
def session_expire_time : Int := 1800

/-- `SESSION_CLEANUP_INTERVAL` environment default (seconds). -/
def session_cleanup_interval : Int := 600

/-- `check_current_user` (`Database/authentication.py` lines 83-131):
resolve the `session_id` cookie against the session store at time `now`
with idle timeout `expire`.  Returns the resolved user id (the empty string
means "no identity") together with the store afterwards.  A missing or
empty cookie resolves to "no identity"; a non-privileged row whose idle
time strictly exceeds `expire` is deleted; otherwise the matching rows'
`last_active` is refreshed to `now` and the owning user id returned. -/
def check_current_user (cookie : Option String) (now expire : Int)
    (store : List Session) : String × List Session :=
  match cookie with
  | none => ("", store)
  | some sid =>
    if sid = "" then ("", store)
    else
      match store.find? (fun r => r.xid == sid) with
      | none => ("", store)
      | some login_data =>
        if !login_data.is_main_user && decide (now - login_data.last_active > expire) then
          ("", store.eraseP (fun r => r.xid == sid))
        else
          (login_data.user_id,
            store.map (fun r => if r.xid == sid then { r with last_active := now } else r))

/-- `delete_session` (`Database/authentication.py` lines 57-80): remove the
first row whose `xid` matches, reporting `true` exactly when a row existed. -/
def delete_session (sid : String) (store : List Session) : Bool × List Session :=
  match store.find? (fun r => r.xid == sid) with
  | some _ => (true, store.eraseP (fun r => r.xid == sid))
  | none => (false, store)

/-- Body of `delete_session` inside its `try`: a storage failure (the `fail`
flag) raises `SQLAlchemyError`. -/
def delete_session_body (fail : Bool) (sid : String) (store : List Session) :
    Except PyErr (Bool × List Session) :=
  if fail then .error .sqlAlchemyError else .ok (delete_session sid store)

/-- `delete_session` with its `try`/`except`/`finally`: `SQLAlchemyError`
is caught (rollback, result `false`), and the `return result` in `finally`
would suppress any other in-flight exception with `result` still `false`. -/
def delete_session_run (fail : Bool) (sid : String) (store : List Session) :
    Except PyErr (Bool × List Session) :=
  match delete_session_body fail sid store with
  | .ok r => .ok r
  | .error .sqlAlchemyError => .ok (false, store)
  | .error .typeError => .ok (false, store)

/-- One tick of `cleanup_login_sessions` (`Database/authentication.py`
lines 195-229): query every non-privileged row with
`last_active < now - expire` and delete each queried row. -/
def cleanup_tick (now expire : Int) (store : List Session) : List Session :=
  let expired_sessions :=
    store.filter (fun r => decide (r.last_active < now - expire) && !r.is_main_user)
  expired_sessions.foldl (fun s r => s.erase r) store

/-- Body of one cleanup tick inside its `try`: a storage failure raises
`SQLAlchemyError`. -/
def cleanup_tick_body (fail : Bool) (now expire : Int) (store : List Session) :
    Except PyErr (List Session) :=
  if fail then .error .sqlAlchemyError else .ok (cleanup_tick now expire store)

/-- One cleanup tick with its `try`/`except`/`finally`: a storage error is
caught and logged inside the tick (rollback, result `false`), so the loop
body completes normally and the loop waits for the next interval. -/
def cleanup_tick_run (fail : Bool) (now expire : Int) (store : List Session) :
    Except PyErr (List Session × Bool) :=
  match cleanup_tick_body fail now expire store with
  | .ok s => .ok (s, true)
  | .error _ => .ok (store, false)

/-- Body of `get_one_family` inside its `try` (`connector.py` lines
397-425): when no row matches, `family_data` is `None` and the subscript
`family_data[0]` raises `TypeError` (not `SQLAlchemyError`). -/
def get_one_family_body (families : List Family) (family_id : String) :
    Except PyErr Family :=
  match families.find? (fun f => f.id == family_id) with
  | none => .error .typeError
  | some f => .ok f

/-- `get_one_family` with its `try`/`except`/`finally`: the `except` clause
catches only `SQLAlchemyError` (result `{}`), but the `return result` in
the `finally` block also suppresses the `TypeError`, returning `result`'s
prior value `{}` (modelled as `none`). -/
def get_one_family (families : List Family) (family_id : String) :
    Except PyErr (Option Family) :=
  match get_one_family_body families family_id with
  | .ok f => .ok (some f)
  | .error .sqlAlchemyError => .ok none
  | .error .typeError => .ok none

/-- Body of `get_hashed_password` inside its `try` (`connector.py` lines
190-208): `.first()[0]` raises `TypeError` when the query returns `None`. -/
def get_hashed_password_body (accounts : List Account) (account_id : String) :
    Except PyErr String :=
  match accounts.find? (fun a => a.id == account_id) with
  | none => .error .typeError
  | some a => .ok a.password

/-- `get_hashed_password` with its `try`/`except`/`finally`: as in
`get_one_family`, every exception is swallowed and `result` (the hash on
success, the empty string otherwise) is returned. -/
def get_hashed_password (accounts : List Account) (account_id : String) :
    Except PyErr String :=
  match get_hashed_password_body accounts account_id with
  | .ok p => .ok p
  | .error .sqlAlchemyError => .ok ""
  | .error .typeError => .ok ""

/-- The value `get_hashed_password` hands its callers (it always returns
`Except.ok`). -/
def get_hashed_password_val (accounts : List Account) (account_id : String) : String :=
  match accounts.find? (fun a => a.id == account_id) with
  | some a => a.password
  | none => ""

/-- `get_one_account` (`connector.py` lines 149-187): the account row with
the given id, `none` standing for the empty dict. -/
def get_one_account (accounts : List Account) (account_id : String) : Option Account :=
  accounts.find? (fun a => a.id == account_id)

/-- Modelled from the spec: `Database.get_id_from_email`, whose defining
file is not under `src/` (only its caller `login` is).  Per the spec's login
flow it maps a login email to the id of the account holding that (unique)
email, the empty string meaning "no such account". -/
def get_id_from_email (accounts : List Account) (email : String) : String :=
  match accounts.find? (fun a => a.email == email) with
  | some a => a.id
  | none => ""

/-- Input body of `POST /auth/login`. -/
structure LoginInput where
  email : Option String
  password : Option String
deriving DecidableEq, Repr

/-- Successful login response: the `session_id` cookie value that was set
and the resolved user id. -/
structure LoginOk where
  session_id : String
  user_id : String
deriving DecidableEq, Repr

/-- The `/auth/login` handler (`Routers/authentication.py` lines 36-137).
`verify` is the external credential verifier (`verify_password`), `new_xid`
the generated session id, and `create_fails` models `create_session`
returning `False` on a storage error.  The new row's `last_active` is the
current timestamp `now` (the column default of `LoginSessionsTable`; per
the spec a new session row is persisted "with current timestamp as
last-active").  On success the `session_id` cookie is set to `new_xid`
(recorded in `LoginOk.session_id`); every error path raises before any
cookie is set. -/
def login (verify : String → String → Bool) (new_xid : String) (now : Int)
    (accounts : List Account) (sessions : List Session) (login_data : LoginInput)
    (create_fails : Bool) : Except HTTPErr LoginOk × List Session :=
  if login_data.email.getD "" = "" || login_data.password.getD "" = "" then
    (.error ⟨422⟩, sessions)
  else
    let user_id := get_id_from_email accounts (login_data.email.getD "")
    if user_id = "" then (.error ⟨401⟩, sessions)
    else
      match get_one_account accounts user_id with
      | none => (.error ⟨401⟩, sessions)
      | some user_data =>
        let hashed_password := get_hashed_password_val accounts user_id
        if !verify (login_data.password.getD "") hashed_password then
          (.error ⟨401⟩, sessions)
        else
          let new_session : Session :=
            ⟨new_xid, user_id, now, user_data.role == Role.MAIN⟩
          if create_fails then (.error ⟨500⟩, sessions)
          else (.ok ⟨new_xid, user_id⟩, sessions ++ [new_session])

/-- The `/auth/logout` handler (`Routers/authentication.py` lines 140-163).
With a non-empty `session_id` cookie it calls `delete_session` and raises a
500 error when that reports `False`; only on `True` does it clear the
cookie (the returned `Bool`) and answer "Logout successful".  Without a
cookie it answers success directly, clearing nothing. -/
def logout (cookie : Option String) (store : List Session) :
    Except HTTPErr Bool × List Session :=
  match cookie with
  | none => (.ok false, store)
  | some sid =>
    if sid = "" then (.ok false, store)
    else
      let r := delete_session sid store
      if r.1 then (.ok true, r.2) else (.error ⟨500⟩, r.2)

/-- The mutable state visible to the handlers: account rows and session
rows. -/
structure AppState where
  accounts : List Account
  sessions : List Session
deriving DecidableEq, Repr

/-- `check_current_user` lifted to the full state: the source function
queries only `LoginSessionsTable`, never `AccountsTable`. -/
def check_current_user_app (cookie : Option String) (now expire : Int)
    (st : AppState) : String × AppState :=
  let r := check_current_user cookie now expire st.sessions
  (r.1, ⟨st.accounts, r.2⟩)

/-! Helper lemmas about list search, erasure and filtering. -/

/-- `find?` commutes with a map that preserves the search predicate. -/
theorem find?_map_of_pres {l : List Session} {p : Session → Bool}
    (f : Session → Session) (hf : ∀ r, p (f r) = p r) :
    (l.map f).find? p = (l.find? p).map f := by
  induction l with
  | nil => rfl
  | cons a l ih =>
    simp only [List.map_cons, List.find?_cons, hf a]
    cases p a
    · exact ih
    · rfl

/-- When session ids are unique (the primary-key invariant of
`LoginSessionsTable`), erasing the first row with a given id leaves no row
with that id. -/
theorem mem_eraseP_xid_ne {l : List Session} {sid : String}
    (hnd : (l.map Session.xid).Nodup) :
    ∀ r ∈ l.eraseP (fun r => r.xid == sid), r.xid ≠ sid := by
  induction l with
  | nil => intro r hr; simp [List.eraseP] at hr
  | cons a l ih =>
    simp only [List.map_cons, List.nodup_cons] at hnd
    intro r hr
    rw [List.eraseP_cons] at hr
    by_cases ha : a.xid = sid
    · simp only [ha, beq_self_eq_true, cond_true] at hr
      intro hrx
      exact hnd.1 (by rw [ha, ← hrx]; exact List.mem_map_of_mem Session.xid hr)
    · have : (a.xid == sid) = false := beq_eq_false_iff_ne.mpr ha
      simp only [this, cond_false, List.mem_cons] at hr
      rcases hr with rfl | hr
      · exact ha
      · exact ih hnd.2 r hr

/-- Erasing a batch of rows distinct from the head leaves the head in
place. -/
theorem foldl_erase_cons_of_ne (l : List Session) (x : Session) :
    ∀ s : List Session, (∀ e ∈ l, e ≠ x) →
      l.foldl (fun acc r => acc.erase r) (x :: s) =
        x :: l.foldl (fun acc r => acc.erase r) s := by
  induction l with
  | nil => intro s _; rfl
  | cons e l ih =>
    intro s hne
    simp only [List.foldl_cons]
    rw [List.erase_cons]
    have hxe : (x == e) = false :=
      beq_eq_false_iff_ne.mpr (fun h => hne e (List.mem_cons_self e l) h.symm)
    rw [hxe]
    simp only [Bool.false_eq_true, if_false]
    exact ih (s.erase e) (fun a ha => hne a (List.mem_cons_of_mem e ha))

/-- Querying the rows satisfying `p` and deleting each of them from the
store is deleting exactly the rows satisfying `p`. -/
theorem foldl_erase_filter (p : Session → Bool) :
    ∀ store : List Session,
      (store.filter p).foldl (fun acc r => acc.erase r) store =
        store.filter (fun r => !(p r)) := by
  intro store
  induction store with
  | nil => rfl
  | cons x rest ih =>
    rw [List.filter_cons, List.filter_cons]
    by_cases hx : p x = true
    · simp only [hx, if_true, Bool.not_true, Bool.false_eq_true, if_false]
      simp only [List.foldl_cons, List.erase_cons, BEq.refl, if_true]
      exact ih
    · have hx' : p x = false := by simpa using hx
      simp only [hx', Bool.false_eq_true, if_false, Bool.not_false, if_true]
      rw [foldl_erase_cons_of_ne]
      · rw [ih]
      · intro e he h
        rw [h] at he
        have := List.of_mem_filter he
        rw [hx'] at this
        exact Bool.false_ne_true this

/-- Claim C1: for a non-privileged session whose idle time `now -
last_active` strictly exceeds the timeout, resolving it through
`check_current_user` returns "no identity" (the empty user id) and deletes
the session, so no session with that id remains in the store. -/
theorem C1_expired_nonprivileged_resolve
    (store : List Session) (sid : String) (now expire : Int) (row : Session)
    (hsid : sid ≠ "")
    (hfind : store.find? (fun r => r.xid == sid) = some row)
    (hmain : row.is_main_user = false)
    (hexp : now - row.last_active > expire)
    (hnd : (store.map Session.xid).Nodup) :
    (check_current_user (some sid) now expire store).1 = "" ∧
    (check_current_user (some sid) now expire store).2 =
      store.eraseP (fun r => r.xid == sid) ∧
    ∀ r ∈ (check_current_user (some sid) now expire store).2, r.xid ≠ sid := by
  have hcc : check_current_user (some sid) now expire store =
      ("", store.eraseP (fun r => r.xid == sid)) := by
    simp only [check_current_user, if_neg hsid, hfind, hmain]
    simp [hexp]
  refine ⟨by rw [hcc], by rw [hcc], ?_⟩
  rw [hcc]
  exact mem_eraseP_xid_ne hnd

/-- Witness for C1 at a concrete store: session `s1`, idle for 1900 s
against a 1800 s timeout, resolves to "no identity" and is gone. -/
theorem C1_expired_nonprivileged_resolve_witness :
    (check_current_user (some "s1") 2000 1800 [⟨"s1", "u1", 100, false⟩]).1 = "" ∧
    (check_current_user (some "s1") 2000 1800 [⟨"s1", "u1", 100, false⟩]).2 =
      [(⟨"s1", "u1", 100, false⟩ : Session)].eraseP (fun r => r.xid == "s1") ∧
    ∀ r ∈ (check_current_user (some "s1") 2000 1800 [⟨"s1", "u1", 100, false⟩]).2,
      r.xid ≠ "s1" :=
  C1_expired_nonprivileged_resolve [⟨"s1", "u1", 100, false⟩] "s1" 2000 1800
    ⟨"s1", "u1", 100, false⟩ (by decide) (by decide) (by decide) (by decide) (by decide)

/-- Claim C2: resolving a privileged session never deletes it and never
returns "no identity" because of idle time, for every elapsed time: the
resolved id is the owning user id, the refreshed row is still in the store,
and the cleanup sweep also leaves the row in place, so only an explicit
delete removes it. -/
theorem C2_privileged_never_expires
    (store : List Session) (sid : String) (now expire : Int) (row : Session)
    (hsid : sid ≠ "")
    (hfind : store.find? (fun r => r.xid == sid) = some row)
    (hmain : row.is_main_user = true) :
    check_current_user (some sid) now expire store =
      (row.user_id,
        store.map (fun r => if r.xid == sid then { r with last_active := now } else r)) ∧
    { row with last_active := now } ∈ (check_current_user (some sid) now expire store).2 ∧
    ∀ t e : Int, row ∈ cleanup_tick t e store := by
  have hx := List.find?_some hfind
  have hrow : row ∈ store := List.mem_of_find?_eq_some hfind
  have hcc : check_current_user (some sid) now expire store =
      (row.user_id,
        store.map (fun r => if r.xid == sid then { r with last_active := now } else r)) := by
    simp only [check_current_user, if_neg hsid, hfind, hmain]
    simp
  refine ⟨hcc, ?_, ?_⟩
  · rw [hcc]
    have := List.mem_map_of_mem
      (fun r => if r.xid == sid then { r with last_active := now } else r) hrow
    simpa [hx] using this
  · intro t e
    have hct : cleanup_tick t e store =
        store.filter (fun r => !(decide (r.last_active < t - e) && !r.is_main_user)) :=
      foldl_erase_filter _ store
    rw [hct]
    exact List.mem_filter.mpr ⟨hrow, by simp [hmain]⟩

/-- Witness for C2 at a concrete store: the privileged session `m1`, idle
for ten million seconds, still resolves to its owner and survives. -/
theorem C2_privileged_never_expires_witness :
    check_current_user (some "m1") 10000000 1800 [⟨"m1", "boss", 0, true⟩] =
      ("boss",
        [(⟨"m1", "boss", 0, true⟩ : Session)].map
          (fun r => if r.xid == "m1" then { r with last_active := 10000000 } else r)) ∧
    { (⟨"m1", "boss", 0, true⟩ : Session) with last_active := 10000000 } ∈
      (check_current_user (some "m1") 10000000 1800 [⟨"m1", "boss", 0, true⟩]).2 ∧
    ∀ t e : Int, (⟨"m1", "boss", 0, true⟩ : Session) ∈
      cleanup_tick t e [⟨"m1", "boss", 0, true⟩] :=
  C2_privileged_never_expires [⟨"m1", "boss", 0, true⟩] "m1" 10000000 1800
    ⟨"m1", "boss", 0, true⟩ (by decide) (by decide) (by decide)

/-- Claim C3: one cleanup tick deletes exactly the non-privileged sessions
whose `last_active` lies strictly before the cutoff `now - expire` and
keeps every other session; in particular, with timeout 1800 s it removes
the stale non-privileged session B and keeps the equally stale privileged
session A. -/
theorem C3_cleanup_tick_exact :
    (∀ (now expire : Int) (store : List Session),
      cleanup_tick now expire store =
        store.filter
          (fun r => !(decide (r.last_active < now - expire) && !r.is_main_user))) ∧
    cleanup_tick 20000 1800
        [⟨"a", "main", 10000, true⟩, ⟨"b", "sub", 10000, false⟩] =
      [⟨"a", "main", 10000, true⟩] := by
  refine ⟨fun now expire store => foldl_erase_filter _ store, ?_⟩
  decide

/-- Claim C4: resolving a valid, non-expired session (privileged, or
non-privileged within the timeout) refreshes its `last_active` to the
resolution time, returns the owning user id, and an immediate second
resolve of the same session id returns the same user id. -/
theorem C4_refresh_and_reresolve
    (store : List Session) (sid : String) (now expire : Int) (row : Session)
    (hsid : sid ≠ "")
    (hfind : store.find? (fun r => r.xid == sid) = some row)
    (hok : row.is_main_user = true ∨ now - row.last_active ≤ expire)
    (hexpnn : 0 ≤ expire) :
    check_current_user (some sid) now expire store =
      (row.user_id,
        store.map (fun r => if r.xid == sid then { r with last_active := now } else r)) ∧
    (check_current_user (some sid) now expire
        (check_current_user (some sid) now expire store).2).1 = row.user_id := by
  have hx := List.find?_some hfind
  have hcond : (!row.is_main_user && decide (now - row.last_active > expire)) = false := by
    rcases hok with hm | hle
    · rw [hm]; rfl
    · have : decide (now - row.last_active > expire) = false :=
        decide_eq_false (not_lt.mpr hle)
      rw [this, Bool.and_false]
  have hcc : check_current_user (some sid) now expire store =
      (row.user_id,
        store.map (fun r => if r.xid == sid then { r with last_active := now } else r)) := by
    simp only [check_current_user, if_neg hsid, hfind, hcond]
    simp
  refine ⟨hcc, ?_⟩
  have hf : ∀ r : Session,
      ((if r.xid == sid then { r with last_active := now } else r).xid == sid) =
        (r.xid == sid) := by
    intro r
    by_cases h : (r.xid == sid) = true
    · simp [h]
    · simp [h]
  have hfind2 : (store.map
        (fun r => if r.xid == sid then { r with last_active := now } else r)).find?
        (fun r => r.xid == sid) = some { row with last_active := now } := by
    rw [find?_map_of_pres _ hf, hfind]
    have hx' : row.xid = sid := by simpa using hx
    simp [hx']
  have h0 : ¬ expire < 0 := not_lt.mpr hexpnn
  rw [hcc]
  simp only [check_current_user, if_neg hsid, hfind2]
  simp [h0]

/-- Witness for C4: session `s2`, idle for exactly the timeout, resolves to
its owner, is refreshed, and resolves identically immediately after. -/
theorem C4_refresh_and_reresolve_witness :
    check_current_user (some "s2") 1900 1800 [⟨"s2", "u2", 100, false⟩] =
      ("u2",
        [(⟨"s2", "u2", 100, false⟩ : Session)].map
          (fun r => if r.xid == "s2" then { r with last_active := 1900 } else r)) ∧
    (check_current_user (some "s2") 1900 1800
        (check_current_user (some "s2") 1900 1800 [⟨"s2", "u2", 100, false⟩]).2).1 = "u2" :=
  C4_refresh_and_reresolve [⟨"s2", "u2", 100, false⟩] "s2" 1900 1800
    ⟨"s2", "u2", 100, false⟩ (by decide) (by decide) (Or.inr (by decide)) (by decide)

/-- Claim C5 counterexample: a logout request carrying a `session_id`
cookie whose session row is absent raises a 500 internal-server error
instead of reporting success to the client. -/
theorem C5_logout_absent_counterexample :
    logout (some "sX") [] = (Except.error ⟨500⟩, []) := rfl

/-- Claim C5 (amended): logout with a cookie naming an existing session
deletes the row, clears the cookie and returns the success message; logout
with a cookie naming an absent session gets not-found from the
session-delete primitive and raises a 500 error with the store unchanged,
so only the primitive treats the absence non-fatally; logout with no cookie
succeeds without touching the store. -/
theorem C5_logout_behaviour
    (store : List Session) (sid : String) (hsid : sid ≠ "") :
    ((∃ row, store.find? (fun r => r.xid == sid) = some row) →
      logout (some sid) store =
        (Except.ok true, store.eraseP (fun r => r.xid == sid))) ∧
    (store.find? (fun r => r.xid == sid) = none →
      logout (some sid) store = (Except.error ⟨500⟩, store)) ∧
    logout none store = (Except.ok false, store) := by
  refine ⟨?_, ?_, rfl⟩
  · rintro ⟨row, hrow⟩
    have hd : delete_session sid store = (true, store.eraseP (fun r => r.xid == sid)) := by
      simp only [delete_session, hrow]
    simp [logout, if_neg hsid, hd]
  · intro hnone
    have hd : delete_session sid store = (false, store) := by
      simp only [delete_session, hnone]
    simp [logout, if_neg hsid, hd]

/-- Witness for C5 (amended), existing-session branch: deleting session
`s1` succeeds and logout reports success with the cookie cleared. -/
theorem C5_logout_behaviour_witness :
    logout (some "s1") [⟨"s1", "u1", 0, false⟩] =
      (Except.ok true,
        [(⟨"s1", "u1", 0, false⟩ : Session)].eraseP (fun r => r.xid == "s1")) :=
  (C5_logout_behaviour [⟨"s1", "u1", 0, false⟩] "s1" (by decide)).1
    ⟨⟨"s1", "u1", 0, false⟩, by decide⟩

/-- Claim C6: deleting an existing session twice: the first call reports
success and removes the row, the second reports not-found and leaves the
store unchanged, and no exception escapes either call (the wrapped calls
return `Except.ok` for every failure mode of the store). -/
theorem C6_delete_session_twice
    (store : List Session) (sid : String) (row : Session)
    (hfind : store.find? (fun r => r.xid == sid) = some row)
    (hnd : (store.map Session.xid).Nodup) :
    delete_session_run false sid store =
      Except.ok (true, store.eraseP (fun r => r.xid == sid)) ∧
    delete_session_run false sid (store.eraseP (fun r => r.xid == sid)) =
      Except.ok (false, store.eraseP (fun r => r.xid == sid)) ∧
    ∀ (fail : Bool) (s : List Session),
      ∃ v, delete_session_run fail sid s = Except.ok v := by
  have hnone : (store.eraseP (fun r => r.xid == sid)).find?
      (fun r => r.xid == sid) = none := by
    apply List.find?_eq_none.mpr
    intro x hx
    have := mem_eraseP_xid_ne hnd x hx
    simp [this]
  refine ⟨?_, ?_, ?_⟩
  · have h : delete_session_run false sid store = .ok (delete_session sid store) := rfl
    rw [h]
    simp only [delete_session, hfind]
  · have h : delete_session_run false sid (store.eraseP (fun r => r.xid == sid)) =
        .ok (delete_session sid (store.eraseP (fun r => r.xid == sid))) := rfl
    rw [h]
    simp only [delete_session, hnone]
  · intro fail s
    cases fail
    · exact ⟨delete_session sid s, rfl⟩
    · exact ⟨(false, s), rfl⟩

/-- Witness for C6 at a concrete one-session store. -/
theorem C6_delete_session_twice_witness :
    delete_session_run false "s1" [⟨"s1", "u1", 0, false⟩] =
      Except.ok (true, [(⟨"s1", "u1", 0, false⟩ : Session)].eraseP (fun r => r.xid == "s1")) ∧
    delete_session_run false "s1"
        ([(⟨"s1", "u1", 0, false⟩ : Session)].eraseP (fun r => r.xid == "s1")) =
      Except.ok (false, [(⟨"s1", "u1", 0, false⟩ : Session)].eraseP (fun r => r.xid == "s1")) ∧
    ∀ (fail : Bool) (s : List Session),
      ∃ v, delete_session_run fail "s1" s = Except.ok v :=
  C6_delete_session_twice [⟨"s1", "u1", 0, false⟩] "s1" ⟨"s1", "u1", 0, false⟩
    (by decide) (by decide)

/-- Claim C7: a login request whose email belongs to an existing account
but whose password fails verification against the stored hash returns 401
Unauthorized with the session store unchanged; no cookie is set since no
success payload is produced. -/
theorem C7_wrong_password_401
    (verify : String → String → Bool) (new_xid : String) (now : Int)
    (accounts : List Account) (sessions : List Session)
    (email pw : String) (acct_by_email acct : Account) (create_fails : Bool)
    (hemail : email ≠ "") (hpw : pw ≠ "")
    (hfe : accounts.find? (fun a => a.email == email) = some acct_by_email)
    (hid : acct_by_email.id ≠ "")
    (hfa : accounts.find? (fun a => a.id == acct_by_email.id) = some acct)
    (hv : verify pw (get_hashed_password_val accounts acct_by_email.id) = false) :
    login verify new_xid now accounts sessions ⟨some email, some pw⟩ create_fails =
      (Except.error ⟨401⟩, sessions) := by
  have hid_eq : get_id_from_email accounts email = acct_by_email.id := by
    simp only [get_id_from_email, hfe]
  simp [login, hemail, hpw, hid_eq, get_one_account, hfa, hv, hid]

/-- Witness for C7: account `u1` with stored hash "hash-pw", attempted
password "wrong", equality-based verifier: login answers 401 and the empty
session store stays empty. -/
theorem C7_wrong_password_401_witness :
    login (fun p h => p == h) "x1" 50
        [⟨"u1", "a@b.c", "hash-pw", Role.SUB, none, none, none, none⟩] []
        ⟨some "a@b.c", some "wrong"⟩ false =
      (Except.error ⟨401⟩, []) :=
  C7_wrong_password_401 (fun p h => p == h) "x1" 50
    [⟨"u1", "a@b.c", "hash-pw", Role.SUB, none, none, none, none⟩] []
    "a@b.c" "wrong" ⟨"u1", "a@b.c", "hash-pw", Role.SUB, none, none, none, none⟩
    ⟨"u1", "a@b.c", "hash-pw", Role.SUB, none, none, none, none⟩ false
    (by decide) (by decide) (by decide) (by decide) (by decide) (by decide)

/-- Claim C8: a successful login appends a session row whose privileged
flag equals (role = MAIN) for the logging-in account at login time, and the
flag is not re-derived on resolve: `check_current_user` reads only the
session store, so its result is the same for any two account stores. -/
theorem C8_privileged_fixed_at_login
    (verify : String → String → Bool) (new_xid : String) (now : Int)
    (accounts : List Account) (sessions : List Session)
    (email pw : String) (acct_by_email acct : Account)
    (hemail : email ≠ "") (hpw : pw ≠ "")
    (hfe : accounts.find? (fun a => a.email == email) = some acct_by_email)
    (hid : acct_by_email.id ≠ "")
    (hfa : accounts.find? (fun a => a.id == acct_by_email.id) = some acct)
    (hv : verify pw (get_hashed_password_val accounts acct_by_email.id) = true) :
    login verify new_xid now accounts sessions ⟨some email, some pw⟩ false =
      (Except.ok ⟨new_xid, acct_by_email.id⟩,
        sessions ++ [⟨new_xid, acct_by_email.id, now, acct.role == Role.MAIN⟩]) ∧
    ∀ (accounts₁ accounts₂ : List Account) (cookie : Option String)
      (t e : Int) (ss : List Session),
      (check_current_user_app cookie t e ⟨accounts₁, ss⟩).1 =
        (check_current_user_app cookie t e ⟨accounts₂, ss⟩).1 ∧
      (check_current_user_app cookie t e ⟨accounts₁, ss⟩).2.sessions =
        (check_current_user_app cookie t e ⟨accounts₂, ss⟩).2.sessions := by
  have hid_eq : get_id_from_email accounts email = acct_by_email.id := by
    simp only [get_id_from_email, hfe]
  refine ⟨?_, fun _ _ _ _ _ _ => ⟨rfl, rfl⟩⟩
  simp [login, hemail, hpw, hid_eq, get_one_account, hfa, hv, hid]

/-- Witness for C8: a MAIN-role account logs in successfully and the
created row carries `is_main_user = true`. -/
theorem C8_privileged_fixed_at_login_witness :
    login (fun p h => p == h) "x1" 50
        [⟨"u1", "a@b.c", "pw", Role.MAIN, none, none, none, none⟩] []
        ⟨some "a@b.c", some "pw"⟩ false =
      (Except.ok ⟨"x1", "u1"⟩, [] ++ [⟨"x1", "u1", 50, Role.MAIN == Role.MAIN⟩]) ∧
    ∀ (accounts₁ accounts₂ : List Account) (cookie : Option String)
      (t e : Int) (ss : List Session),
      (check_current_user_app cookie t e ⟨accounts₁, ss⟩).1 =
        (check_current_user_app cookie t e ⟨accounts₂, ss⟩).1 ∧
      (check_current_user_app cookie t e ⟨accounts₁, ss⟩).2.sessions =
        (check_current_user_app cookie t e ⟨accounts₂, ss⟩).2.sessions :=
  C8_privileged_fixed_at_login (fun p h => p == h) "x1" 50
    [⟨"u1", "a@b.c", "pw", Role.MAIN, none, none, none, none⟩] []
    "a@b.c" "pw" ⟨"u1", "a@b.c", "pw", Role.MAIN, none, none, none, none⟩
    ⟨"u1", "a@b.c", "pw", Role.MAIN, none, none, none, none⟩
    (by decide) (by decide) (by decide) (by decide) (by decide) (by decide)

/-- Claim C9: a cleanup tick never lets a storage error escape the loop
body: the wrapped tick always returns `Except.ok`; on a storage failure it
yields the unchanged store with result `false` (logged), so the loop
proceeds to wait for the next interval. -/
theorem C9_cleanup_swallows_storage_errors
    (fail : Bool) (now expire : Int) (store : List Session) :
    cleanup_tick_run fail now expire store =
      Except.ok
        (if fail then (store, false) else (cleanup_tick now expire store, true)) := by
  cases fail <;> rfl

/-- Claim C10: on a missing family id the `try` body of `get_one_family`
raises a `TypeError` by subscripting `None`, yet the call returns the empty
dict with no escaping exception (the `return` in the `finally` block
suppresses it); likewise `get_hashed_password` on a missing account id
returns the empty string without raising. -/
theorem C10_none_subscript_suppressed
    (families : List Family) (family_id : String)
    (accounts : List Account) (account_id : String)
    (hf : families.find? (fun f => f.id == family_id) = none)
    (ha : accounts.find? (fun a => a.id == account_id) = none) :
    get_one_family_body families family_id = Except.error PyErr.typeError ∧
    get_one_family families family_id = Except.ok none ∧
    get_hashed_password_body accounts account_id = Except.error PyErr.typeError ∧
    get_hashed_password accounts account_id = Except.ok "" := by
  simp [get_one_family_body, get_one_family, get_hashed_password_body,
    get_hashed_password, hf, ha]

/-- Witness for C10 at the empty stores. -/
theorem C10_none_subscript_suppressed_witness :
    get_one_family_body [] "f1" = Except.error PyErr.typeError ∧
    get_one_family [] "f1" = Except.ok none ∧
    get_hashed_password_body [] "u1" = Except.error PyErr.typeError ∧
    get_hashed_password [] "u1" = Except.ok "" :=
  C10_none_subscript_suppressed [] "f1" [] "u1" (by decide) (by decide)
